import Mathlib

/-!
Shallow embedding of `nmma/em/prior.py` and `nmma/em/create_svdmodel.py`.

Python floats are modelled as exact rationals (ℚ) where the code only does
field arithmetic, and as ℝ where transcendental functions (`10 ** x`,
`sin(arccos u)`) appear.  A Python dict of parameters is a function
`String → Option ℚ` (or `… → Option ℝ`); a `KeyError` / unbound local is
`none`; a raised exception is `Except.error` / `none` at the call result.
-/

namespace NMMA

/-! ### ConditionalGaussianIotaGivenThetaCore (prior.py lines 8-59)

The class extends `ConditionalTruncatedGaussian`; its constructor passes
`mu=0, sigma=1` and records `self._required_variables = ["thetaCore"]` and
`self.N_sigma = N_sigma`.  `_condition_function` returns
`dict(sigma=(1.0 / self.N_sigma) * kwargs[self._required_variables[0]])`. -/

structure CondGaussianIota where
  mu : ℚ
  sigma : ℚ
  minimum : ℚ
  maximum : ℚ
  name : String
  N_sigma : ℚ
  required_variables : List String

/-- Constructor `ConditionalGaussianIotaGivenThetaCore.__init__`:
`super().__init__(mu=0, sigma=1, minimum=.., maximum=.., name=.., ...)`
followed by `self._required_variables = ["thetaCore"]` and
`self.N_sigma = N_sigma`. -/
def mkCondGaussianIota (minimum maximum : ℚ) (name : String) (N_sigma : ℚ) :
    CondGaussianIota :=
  { mu := 0
    sigma := 1
    minimum := minimum
    maximum := maximum
    name := name
    N_sigma := N_sigma
    required_variables := ["thetaCore"] }

/-- `_condition_function(self, reference_params, **kwargs)` returns
`dict(sigma=(1.0 / self.N_sigma) * kwargs[self._required_variables[0]])`.
`kwargs[...]` raises `KeyError` when the key is absent: modelled as `none`. -/
def condition_function (p : CondGaussianIota) (kwargs : String → Option ℚ) :
    Option ℚ :=
  (kwargs (p.required_variables.headD "")).map (fun v => 1 / p.N_sigma * v)

/-! ### Ebv setup in `create_prior_from_args` (prior.py lines 156-171)

```
if 'Ebv' not in priors:
    if args.Ebv_max > 0.0 and args.use_Ebv:
        Ebv_c = 1.0 / (0.5 * args.Ebv_max)
        priors["Ebv"] = Interped(minimum=0.0, maximum=args.Ebv_max,
                                 xx=[0, args.Ebv_max], yy=[Ebv_c, 0])
    else:
        priors["Ebv"] = DeltaFunction(peak=0.0)
```
-/

inductive EbvPrior where
  | deltaFunction (peak : ℚ)
  | interped (minimum maximum : ℚ) (xx yy : List ℚ)
  deriving DecidableEq

/-- The Ebv branch of `create_prior_from_args`.  Returns `none` when the
base prior already has an `Ebv` entry (no insertion happens). -/
def ebvSetup (hasEbv : Bool) (Ebv_max : ℚ) (use_Ebv : Bool) : Option EbvPrior :=
  if hasEbv then
    none
  else if Ebv_max > 0 ∧ use_Ebv then
    some (EbvPrior.interped 0 Ebv_max [0, Ebv_max] [1 / (1 / 2 * Ebv_max), 0])
  else
    some (EbvPrior.deltaFunction 0)

/-- Linear interpolation through two nodes `(x0, y0)`, `(x1, y1)`: the
density an `Interped` prior with `xx=[x0,x1], yy=[y0,y1]` represents on
`[x0, x1]`. -/
def interpTwoNodes (x0 x1 y0 y1 x : ℚ) : ℚ :=
  y0 + (y1 - y0) * (x - x0) / (x1 - x0)

/-- `np.trapz(y, x)`: trapezoidal integral of samples `y` against
abscissae `x` (note numpy's argument order is `(y, x)`). -/
def trapz (y x : List ℚ) : ℚ :=
  ((x.zip x.tail).zip (y.zip y.tail)).foldl
    (fun acc p => acc + (p.1.2 - p.1.1) * (p.2.1 + p.2.2) / 2) 0

/-! ### Sky position selection in `inclination_prior_from_fit`
(prior.py lines 73-96)

```
if args.ra and args.dec:
    ...
    # get the nested_idx
else:
    maP_idx = np.argmax(skymap['PROBDENSITY'])
    ...
    row = skymap[maP_idx]
```

After the `if`, line 105 reads `row['{}_SAMPLES'.format(colname)]`.  In the
`args.ra and args.dec` branch the local `row` is never assigned (the code
after the comment `# get the nested_idx` is missing), so the later read of
`row` fails; that unbound state is modelled as `none`. -/

structure SkyRow where
  PROBDENSITY : ℚ
  PROBDENSITY_SAMPLES : List ℚ
  DISTMU_SAMPLES : List ℚ
  DISTSIGMA_SAMPLES : List ℚ
  DISTNORM_SAMPLES : List ℚ
  deriving DecidableEq

/-- Python truthiness of an optional float: `None` and `0.0` are falsy. -/
def truthy : Option ℚ → Bool
  | none => false
  | some x => decide (x ≠ 0)

/-- The test `args.ra and args.dec` guarding the user-supplied branch. -/
def userBranchTaken (ra dec : Option ℚ) : Bool :=
  truthy ra && truthy dec

/-- `np.argmax`: index of the first occurrence of the maximum value. -/
def argmaxAux : List ℚ → ℕ → ℕ → ℚ → ℕ
  | [], _, best, _ => best
  | v :: vs, i, best, bestVal =>
    if bestVal < v then argmaxAux vs (i + 1) i v
    else argmaxAux vs (i + 1) best bestVal

def argmax : List ℚ → ℕ
  | [] => 0
  | v :: vs => argmaxAux vs 1 0 v

/-- The `row` available to the `SAMPLES` interpolation after the branch on
`args.ra and args.dec`: in the user-supplied branch no row is ever fetched
(`row` stays unbound, modelled `none`); otherwise the row at the index of
the maximum `PROBDENSITY` is fetched. -/
def selectRow (ra dec : Option ℚ) (skymap : List SkyRow) : Option SkyRow :=
  if userBranchTaken ra dec then
    none
  else
    skymap.get? (argmax (skymap.map SkyRow.PROBDENSITY))

/-! ### Normalization step of `inclination_prior_from_fit`
(prior.py lines 123-126)

```
prob_iota /= np.trapz(iota_EM, prob_iota_EM)
priors['inclination_EM'] = Interped(xx=iota_EM, yy=prob_iota_EM)
```
The division rescales `prob_iota` (the full, unfolded array, which is never
used again) by `np.trapz(iota_EM, prob_iota_EM)` — numpy's signature is
`trapz(y, x)`, so `iota_EM` plays the role of the sampled values and
`prob_iota_EM` of the abscissae.  The `Interped` prior is then built from
the untouched `prob_iota_EM`. -/

structure NormalizeResult where
  prob_iota : List ℚ
  interped_xx : List ℚ
  interped_yy : List ℚ
  deriving DecidableEq

def normalizeStep (prob_iota iota_EM prob_iota_EM : List ℚ) :
    NormalizeResult :=
  { prob_iota := prob_iota.map (fun v => v / trapz iota_EM prob_iota_EM)
    interped_xx := iota_EM
    interped_yy := prob_iota_EM }

/-! ### Inclination folding in `inclination_prior_from_fit`
(prior.py lines 109-121)

```
u = np.linspace(-1, 1, 1000)           # cos(iota); write n = 2*m, m = 500
...
prob_u = prob_density(u) * ...          # some function probU of u
iota = np.arccos(u)
prob_iota = prob_u * np.sin(iota)       # sin(arccos u) = sqrt(1 - u^2)
iota_lt_pi2, iota_gt_pi2 = iota[iota < pi/2], iota[iota >= pi/2]
prob_lt_pi2, prob_gt_pi2 = prob_iota[iota < pi/2], prob_iota[iota >= pi/2]
iota_EM = iota_lt_pi2
prob_iota_EM = prob_lt_pi2 + prob_gt_pi2[::-1]
```

On the grid `u k = -1 + 2*k/(n-1)` with `n = 2*m` even, `u k` is never `0`,
and `arccos (u k) < pi/2  ↔  0 < u k  ↔  m ≤ k`; so the mask split is the
index split at `m`, `prob_lt_pi2 = prob_iota.drop m` and
`prob_gt_pi2 = prob_iota.take m`.  The composite factor multiplying
`sin(iota)` (interpolated map columns times the distance-Gaussian pdf) is
an arbitrary function `probU` of `u`. -/

noncomputable def ugrid (m k : ℕ) : ℝ :=
  -1 + 2 * (k : ℝ) / (2 * (m : ℝ) - 1)

noncomputable def prob_iota_val (m : ℕ) (probU : ℝ → ℝ) (k : ℕ) : ℝ :=
  probU (ugrid m k) * Real.sqrt (1 - ugrid m k ^ 2)

noncomputable def prob_iota_arr (m : ℕ) (probU : ℝ → ℝ) : List ℝ :=
  (List.range (2 * m)).map (prob_iota_val m probU)

/-- `prob_iota_EM = prob_lt_pi2 + prob_gt_pi2[::-1]` (elementwise sum of
the upper half with the reversed lower half). -/
noncomputable def prob_iota_EM_arr (m : ℕ) (probU : ℝ → ℝ) : List ℝ :=
  List.zipWith (· + ·) ((prob_iota_arr m probU).drop m)
    (((prob_iota_arr m probU).take m).reverse)

/-! ### `convert_mtot_mni` and its dispatch in `create_prior_from_args`
(prior.py lines 130-154)

A parameter dict is `String → Option ℝ`; `KeyError` is `none` at the
result.  `10 ** x` is real exponentiation. -/

def updateParam (p : String → Option ℝ) (name : String) (v : ℝ) :
    String → Option ℝ :=
  fun k => if k = name then some v else p k

/-- One iteration of the loop
`if param not in parameters: parameters[param] = 10**parameters["log10_" + param]`. -/
noncomputable def fillFromLog10 (p : String → Option ℝ) (name : String) :
    Option (String → Option ℝ) :=
  match p name with
  | some _ => some p
  | none =>
    (p ("log10_" ++ name)).map (fun v => updateParam p name ((10 : ℝ) ^ v))

noncomputable def convert_mtot_mni (p : String → Option ℝ) :
    Option (String → Option ℝ) :=
  (fillFromLog10 p "mni").bind fun p1 =>
  (fillFromLog10 p1 "mtot").bind fun p2 =>
  (fillFromLog10 p2 "mrp").bind fun p3 =>
  (p3 "mni").bind fun mni =>
  (p3 "mtot").bind fun mtot =>
  (p3 "mrp").bind fun mrp =>
  (p3 "xmix").map fun xmix =>
    updateParam (updateParam p3 "mni_c" (mni / mtot)) "mrp_c"
      (xmix * (mtot - mni) - mrp)

/-- `len(set(['AnBa2022_linear', 'AnBa2022_log']) & set(model_names)) > 0`:
the conversion function is installed iff this holds. -/
def usesAnBa2022Conversion (model_names : List String) : Bool :=
  (["AnBa2022_linear", "AnBa2022_log"] : List String).any
    (fun m => decide (m ∈ model_names))

/-! ### Model-name check in `create_svdmodel.main`
(create_svdmodel.py lines 88-99)

After argument parsing, `main` builds `MODEL_FUNCTIONS` from the functions
of the external `model_parameters` module (passed here as the parameter
`model_functions`), raises `ValueError` if the requested model is not a
key, and only then reads the light-curve files and trains.  The run is
modelled as the ordered list of data/training steps performed plus the
raised error, if any; a raised error ends `main` (no retry). -/

structure MainOutcome where
  steps_performed : List String
  error : Option String
  deriving DecidableEq

def mainRun (model_functions : List String) (model : String) : MainOutcome :=
  if model ∈ model_functions then
    { steps_performed :=
        ["read_files", "model_function", "SVDTrainingModel",
          "SVDLightCurveModel"]
      error := none }
  else
    { steps_performed := []
      error := some (model ++ " unknown. Please add to nmma.em.model_parameters") }

/-! ### Theorems for the conditional inclination prior -/

/-- C1: for every realized `thetaCore` value and every `N_sigma`, the
conditional inclination prior has mean 0 and its resolved scale is
`thetaCore / N_sigma`; in particular `thetaCore = 0.1, N_sigma = 2`
resolves to scale `0.05`. -/
theorem C1_conditional_sigma (minimum maximum : ℚ) (name : String)
    (N θ : ℚ) (kwargs : String → Option ℚ)
    (h : kwargs "thetaCore" = some θ) :
    (mkCondGaussianIota minimum maximum name N).mu = 0 ∧
    condition_function (mkCondGaussianIota minimum maximum name N) kwargs =
      some (θ / N) ∧
    condition_function (mkCondGaussianIota 0 1 "inclination_EM" 2)
      (fun k => if k = "thetaCore" then some (1 / 10) else none) =
      some (5 / 100) := by
  refine ⟨rfl, ?_, by norm_num [condition_function, mkCondGaussianIota]⟩
  simp [condition_function, mkCondGaussianIota, h]
  ring

theorem C1_conditional_sigma_witness :
    ((fun k => if k = "thetaCore" then some ((1 : ℚ) / 10) else none)
        "thetaCore" = some (1 / 10)) ∧
    ((mkCondGaussianIota 0 1 "inclination_EM" 2).mu = 0 ∧
      condition_function (mkCondGaussianIota 0 1 "inclination_EM" 2)
        (fun k => if k = "thetaCore" then some ((1 : ℚ) / 10) else none) =
        some (1 / 10 / 2) ∧
      condition_function (mkCondGaussianIota 0 1 "inclination_EM" 2)
        (fun k => if k = "thetaCore" then some (1 / 10) else none) =
        some (5 / 100)) :=
  ⟨rfl,
    C1_conditional_sigma 0 1 "inclination_EM" 2 (1 / 10) _ rfl⟩

/-- C6: the conditional prior declares exactly `["thetaCore"]` as its
required conditioning variables, and resolving the scale fails (the
`kwargs` lookup has no value) when no realized `thetaCore` is available. -/
theorem C6_required_variable_fails (minimum maximum : ℚ) (name : String)
    (N : ℚ) (kwargs : String → Option ℚ)
    (h : kwargs "thetaCore" = none) :
    (mkCondGaussianIota minimum maximum name N).required_variables =
      ["thetaCore"] ∧
    condition_function (mkCondGaussianIota minimum maximum name N) kwargs =
      none := by
  refine ⟨rfl, ?_⟩
  simp [condition_function, mkCondGaussianIota, h]

theorem C6_required_variable_fails_witness :
    ((fun _ : String => (none : Option ℚ)) "thetaCore" = none) ∧
    ((mkCondGaussianIota 0 1 "inclination_EM" 2).required_variables =
        ["thetaCore"] ∧
      condition_function (mkCondGaussianIota 0 1 "inclination_EM" 2)
        (fun _ => none) = none) :=
  ⟨rfl, C6_required_variable_fails 0 1 "inclination_EM" 2 (fun _ => none) rfl⟩

/-! ### Theorems for the Ebv step -/

/-- C5: with no `Ebv` in the base prior, `use_Ebv = false` inserts the
delta distribution at 0 (support exactly the point 0); `use_Ebv = true`
with `Ebv_max = 2` inserts the linearly decaying `Interped` on `[0, 2]`
whose two-node linear density is strictly decreasing on `[0, 2]` and whose
trapezoidal integral over `[0, 2]` is 1. -/
theorem C5_ebv_distributions :
    ebvSetup false 2 false = some (EbvPrior.deltaFunction 0) ∧
    ebvSetup false 2 true = some (EbvPrior.interped 0 2 [0, 2] [1, 0]) ∧
    (∀ a b : ℚ, 0 ≤ a → a < b → b ≤ 2 →
      interpTwoNodes 0 2 1 0 b < interpTwoNodes 0 2 1 0 a) ∧
    trapz [1, 0] [0, 2] = 1 := by
  refine ⟨by norm_num [ebvSetup], by norm_num [ebvSetup], ?_,
    by norm_num [trapz]⟩
  intro a b _ hab _
  simp only [interpTwoNodes]
  linarith

theorem C5_ebv_distributions_witness :
    ((0 : ℚ) ≤ 1 / 2 ∧ (1 / 2 : ℚ) < 1 ∧ (1 : ℚ) ≤ 2) ∧
    interpTwoNodes 0 2 1 0 1 < interpTwoNodes 0 2 1 0 (1 / 2) :=
  ⟨⟨by norm_num, by norm_num, by norm_num⟩,
    C5_ebv_distributions.2.2.1 (1 / 2) 1 (by norm_num) (by norm_num)
      (by norm_num)⟩

/-- C9: when the base prior lacks `Ebv` and `use_Ebv` is true but
`Ebv_max` is not strictly positive, the inserted prior is the delta at 0;
the decaying `Interped` is installed exactly when `use_Ebv` and
`Ebv_max > 0` both hold. -/
theorem C9_ebv_nonpositive_max (M : ℚ) (hM : ¬ M > 0) :
    ebvSetup false M true = some (EbvPrior.deltaFunction 0) ∧
    (∀ (M' : ℚ) (u : Bool),
      (∃ mn mx xx yy, ebvSetup false M' u = some (EbvPrior.interped mn mx xx yy)) ↔
        (M' > 0 ∧ u = true)) := by
  constructor
  · simp [ebvSetup, hM]
  · intro M' u
    by_cases h : M' > 0 ∧ u
    · obtain ⟨h1, h2⟩ := h
      simp [ebvSetup, h1, h2]
    · constructor
      · rintro ⟨mn, mx, xx, yy, hEq⟩
        simp [ebvSetup, h] at hEq
      · intro hcontra
        exact absurd ⟨hcontra.1, hcontra.2⟩ h

theorem C9_ebv_nonpositive_max_witness :
    ¬ (0 : ℚ) > 0 ∧
    ebvSetup false 0 true = some (EbvPrior.deltaFunction 0) :=
  ⟨by norm_num, (C9_ebv_nonpositive_max 0 (by norm_num)).1⟩

/-! ### Theorems for the sky-map step -/

/-- C3: code behaviour of the normalization step at a concrete folded
density.  With the fold output `iota_EM = [0, 1]`, `prob_iota_EM = [2, 2]`,
the `Interped` prior is built from the untouched `[2, 2]`, whose
trapezoidal integral over the inclination grid is `2`, not `1`; moreover
the divisor the code computes, `trapz(iota_EM, prob_iota_EM)` (arguments
swapped), is `0` here. -/
theorem C3_unnormalized_interped :
    (normalizeStep [2, 2, 2, 2] [0, 1] [2, 2]).interped_yy = [2, 2] ∧
    trapz [2, 2] [0, 1] = 2 ∧
    trapz [0, 1] [2, 2] = 0 := by
  refine ⟨rfl, ?_, ?_⟩ <;> norm_num [trapz]

/-- C4: code behaviour of the sky-position branch.  With both `ra` and
`dec` supplied (nonzero), no sky-map row is ever fetched for the profile
extraction (`row` stays unbound: `none`); the maximum-probability row is
fetched only in the no-position branch. -/
theorem C4_user_position_no_row :
    selectRow (some 30) (some 45)
      [⟨1, [1], [1], [1], [1]⟩, ⟨2, [2], [2], [2], [2]⟩] = none ∧
    selectRow none none
      [⟨1, [1], [1], [1], [1]⟩, ⟨2, [2], [2], [2], [2]⟩] =
      some ⟨2, [2], [2], [2], [2]⟩ := by
  constructor
  · simp [selectRow, userBranchTaken, truthy]
  · norm_num [selectRow, userBranchTaken, truthy, argmax, argmaxAux]

/-- C10: the user-supplied branch is entered only when both coordinates
are truthy; a coordinate equal to `0` is falsy in Python, so supplying
`ra = 0` (or `dec = 0`) sends the code to the maximum-probability-pixel
branch. -/
theorem C10_zero_coordinate_falsy (ra dec : Option ℚ) (skymap : List SkyRow) :
    (userBranchTaken ra dec = true ↔ (truthy ra = true ∧ truthy dec = true)) ∧
    truthy (some 0) = false ∧
    selectRow (some 0) dec skymap =
      skymap.get? (argmax (skymap.map SkyRow.PROBDENSITY)) ∧
    selectRow ra (some 0) skymap =
      skymap.get? (argmax (skymap.map SkyRow.PROBDENSITY)) := by
  refine ⟨by simp [userBranchTaken], by simp [truthy], ?_, ?_⟩
  · simp [selectRow, userBranchTaken, truthy]
  · simp [selectRow, userBranchTaken, truthy]

/-! ### Theorems for the folding step -/

lemma ugrid_mirror (m i : ℕ) (hi : i < m) :
    ugrid m (m - 1 - i) = - ugrid m (m + i) := by
  have h1 : 1 + i ≤ m := by omega
  have hm1 : (1 : ℝ) ≤ (m : ℝ) := by
    exact_mod_cast Nat.one_le_iff_ne_zero.mpr (by omega)
  have hden : (2 * (m : ℝ) - 1) ≠ 0 := by nlinarith
  unfold ugrid
  rw [Nat.sub_sub, Nat.cast_sub h1]
  push_cast
  field_simp
  ring

lemma prob_iota_val_mirror (m : ℕ) (probU : ℝ → ℝ)
    (hsym : ∀ x : ℝ, probU (-x) = probU x) (i : ℕ) (hi : i < m) :
    prob_iota_val m probU (m - 1 - i) = prob_iota_val m probU (m + i) := by
  unfold prob_iota_val
  rw [ugrid_mirror m i hi, hsym, neg_sq]

/-- C2: if the density over `cos(iota)` entering the fold is symmetric
about `cos = 0` (so inclinations `θ` and `π − θ` are equally likely), the
folded array over `[0, π/2]` equals, entry by entry, twice the unfolded
density at the corresponding inclination grid point. -/
theorem C2_fold_doubles_symmetric (m : ℕ) (probU : ℝ → ℝ)
    (hsym : ∀ x : ℝ, probU (-x) = probU x) :
    prob_iota_EM_arr m probU =
      (List.range m).map (fun i => 2 * prob_iota_val m probU (m + i)) := by
  apply List.ext_getElem
  · simp [prob_iota_EM_arr, prob_iota_arr]
    omega
  · intro i h1 h2
    simp only [List.length_map, List.length_range] at h2
    simp only [prob_iota_EM_arr, prob_iota_arr, List.getElem_zipWith,
      List.getElem_drop, List.getElem_reverse, List.getElem_take,
      List.getElem_map, List.getElem_range, List.length_reverse,
      List.length_take, List.length_map, List.length_range]
    have hlen : min m (2 * m) - 1 - i = m - 1 - i := by omega
    rw [hlen, prob_iota_val_mirror m probU hsym i h2]
    ring

theorem C2_fold_doubles_symmetric_witness :
    (∀ x : ℝ, (fun _ : ℝ => (1 : ℝ)) (-x) = (fun _ : ℝ => (1 : ℝ)) x) ∧
    prob_iota_EM_arr 1 (fun _ => 1) =
      (List.range 1).map (fun i => 2 * prob_iota_val 1 (fun _ => 1) (1 + i)) :=
  ⟨fun _ => rfl, C2_fold_doubles_symmetric 1 (fun _ => 1) (fun _ => rfl)⟩

/-! ### Theorems for the conversion function and its dispatch -/

/-- C7: with a recognized AnBa2022 model name present, the conversion
function is installed; for each of `mni`, `mtot`, `mrp` it leaves a
present value unchanged and fills an absent one from `10 ** log10_...`,
then computes `mni_c = mni / mtot` and
`mrp_c = xmix * (mtot - mni) - mrp`. -/
theorem C7_anba_conversion (names : List String)
    (hn : "AnBa2022_linear" ∈ names ∨ "AnBa2022_log" ∈ names)
    (p : String → Option ℝ) (mtot mrp xmix : ℝ)
    (hmtot : p "mtot" = some mtot) (hmrp : p "mrp" = some mrp)
    (hxmix : p "xmix" = some xmix) :
    usesAnBa2022Conversion names = true ∧
    (∀ v, p "mni" = some v →
      ∃ q, convert_mtot_mni p = some q ∧
        q "mni" = some v ∧ q "mtot" = some mtot ∧ q "mrp" = some mrp ∧
        q "mni_c" = some (v / mtot) ∧
        q "mrp_c" = some (xmix * (mtot - v) - mrp)) ∧
    (∀ l, p "mni" = none → p "log10_mni" = some l →
      ∃ q, convert_mtot_mni p = some q ∧
        q "mni" = some ((10 : ℝ) ^ l) ∧
        q "mni_c" = some ((10 : ℝ) ^ l / mtot) ∧
        q "mrp_c" = some (xmix * (mtot - (10 : ℝ) ^ l) - mrp)) := by
  refine ⟨?_, ?_, ?_⟩
  · rcases hn with h | h <;> simp [usesAnBa2022Conversion, h]
  · intro v hv
    refine ⟨updateParam (updateParam p "mni_c" (v / mtot)) "mrp_c"
        (xmix * (mtot - v) - mrp), ?_, ?_, ?_, ?_, ?_, ?_⟩ <;>
      simp [convert_mtot_mni, fillFromLog10, hv, hmtot, hmrp, hxmix,
        updateParam]
  · intro l hv hl
    refine ⟨updateParam (updateParam (updateParam p "mni" ((10 : ℝ) ^ l))
        "mni_c" ((10 : ℝ) ^ l / mtot)) "mrp_c"
        (xmix * (mtot - (10 : ℝ) ^ l) - mrp), ?_, ?_, ?_, ?_⟩ <;>
      simp [convert_mtot_mni, fillFromLog10, hv, hl, hmtot, hmrp, hxmix,
        updateParam]

def sampleParams : String → Option ℝ := fun k =>
  if k = "mni" then some 2
  else if k = "mtot" then some 4
  else if k = "mrp" then some 1
  else if k = "xmix" then some 3
  else none

theorem C7_anba_conversion_witness :
    ("AnBa2022_linear" ∈ (["AnBa2022_log"] : List String) ∨
      "AnBa2022_log" ∈ (["AnBa2022_log"] : List String)) ∧
    sampleParams "mtot" = some 4 ∧ sampleParams "mrp" = some 1 ∧
    sampleParams "xmix" = some 3 ∧ sampleParams "mni" = some 2 ∧
    (∃ q, convert_mtot_mni sampleParams = some q ∧
      q "mni" = some 2 ∧ q "mtot" = some 4 ∧ q "mrp" = some 1 ∧
      q "mni_c" = some (2 / 4) ∧ q "mrp_c" = some (3 * (4 - 2) - 1)) :=
  ⟨Or.inr (by simp), rfl, rfl, rfl, rfl,
    (C7_anba_conversion ["AnBa2022_log"] (Or.inr (by simp)) sampleParams
        4 1 3 rfl rfl rfl).2.1 2 rfl⟩

/-! ### Theorems for the training driver -/

/-- C8: for a requested model name outside the recognized model-parameter
functions, `main` raises the configuration error with no light-curve read,
no training step performed, and no retry (the error is the final
outcome). -/
theorem C8_unknown_model_fatal (funcs : List String) (model : String)
    (h : model ∉ funcs) :
    mainRun funcs model =
      { steps_performed := []
        error :=
          some (model ++ " unknown. Please add to nmma.em.model_parameters") } ∧
    (mainRun funcs model).steps_performed = [] ∧
    (mainRun funcs model).error.isSome = true := by
  refine ⟨?_, ?_, ?_⟩ <;> simp [mainRun, h]

theorem C8_unknown_model_fatal_witness :
    ("nonexistent_model" ∉ (["Bu2019lm", "Ka2017"] : List String)) ∧
    (mainRun ["Bu2019lm", "Ka2017"] "nonexistent_model").steps_performed =
      [] :=
  ⟨by simp,
    (C8_unknown_model_fatal ["Bu2019lm", "Ka2017"] "nonexistent_model"
        (by simp)).2.1⟩

end NMMA
